import Mathlib

/-
Verification of the DairyClime core (src/DairyClime.py): heat-stress index
(ITU) computation, classification into risk bands, period-dependent series
aggregation for the chart, and the period summary.

Conventions of the embedding:
* Python floats are modelled as ℚ (exact rationals); the arithmetic of the
  core is a handful of additions, multiplications and divisions by constants,
  so every comparison against the band thresholds is faithful.
* A pandas dataframe row is a `Registro` (date + ITU value); the dataframes
  produced for plotting are lists of `Ponto`.  A pandas NaN mean over an
  empty resampling bucket is modelled as `none : Option ℚ`.
* Dates are proleptic Gregorian triples year/month/day; `Date.ord` is the
  classic days-from-civil rank (valid for every year ≥ 1, which covers the
  app's date range that starts at 1990-01-01), so that
  `(data_fim - data_ini).days = ord data_fim - ord data_ini`.
* `st.stop()` aborting the Streamlit script is modelled by `Except.error`.
-/

/-- Source `calcular_itu` (src/DairyClime.py:29): ITU = 0.8*Ta + (UR*(Ta-14.3))/100 + 46.3. -/
def calcular_itu (ta_c ur_pct : ℚ) : ℚ :=
  0.8 * ta_c + (ur_pct * (ta_c - 14.3)) / 100 + 46.3

/-- Source `classificar_itu` (src/DairyClime.py:37): the four risk bands. -/
def classificar_itu (itu : ℚ) : String :=
  if itu ≤ 70 then "Normal"
  else if itu ≤ 78 then "Alerta"
  else if itu ≤ 82 then "Perigo"
  else "Emergência"

/-- Source `cor_por_itu` (src/DairyClime.py:60): bar color from the ITU value. -/
def cor_por_itu (itu : ℚ) : String :=
  if itu ≤ 70 then "#2E7D32"
  else if itu ≤ 78 then "#F9A825"
  else if itu ≤ 82 then "#EF6C00"
  else "#C62828"

/-- Template identifier for the four f-string narratives of
`diagnostico_periodo` (src/DairyClime.py:71); the exact Portuguese wording is
presentation and is abstracted to the template id plus the numbers it
interpolates, in order. -/
inductive Modelo where
  | normal
  | alerta
  | perigo
  | emergencia
deriving DecidableEq, Repr

/-- Source `diagnostico_periodo` (src/DairyClime.py:71): picks one of four
narrative templates from the mean ITU; returned as the template id together
with the list of interpolated numbers in order of appearance. -/
def diagnostico_periodo (media_itu p_alerta p_perigo p_emerg : ℚ) : Modelo × List ℚ :=
  if media_itu ≤ 70 then (.normal, [media_itu])
  else if media_itu ≤ 78 then (.alerta, [media_itu, p_alerta])
  else if media_itu ≤ 82 then (.perigo, [media_itu, p_perigo])
  else (.emergencia, [media_itu, p_emerg])

/-- Calendar date, proleptic Gregorian. -/
structure Date where
  ano : ℕ
  mes : ℕ
  dia : ℕ
deriving DecidableEq, Repr

/-- Rank of a date in days (days-from-civil), valid for years ≥ 1: the model
of `datetime.date` subtraction, `(a - b).days = a.ord - b.ord`. -/
def Date.ord (d : Date) : ℕ :=
  let y := if d.mes ≤ 2 then d.ano - 1 else d.ano
  let era := y / 400
  let yoe := y % 400
  let mp := if 2 < d.mes then d.mes - 3 else d.mes + 9
  let doy := (153 * mp + 2) / 5 + (d.dia - 1)
  let doe := yoe * 365 + yoe / 4 - yoe / 100 + doy
  era * 146097 + doe

/-- Source line 130: `dias = (data_fim - data_ini).days + 1`. -/
def dias (data_ini data_fim : Date) : ℤ :=
  (data_fim.ord : ℤ) - (data_ini.ord : ℤ) + 1

/-- Linear month rank (year*12 + month-1): the key pandas `resample("M")`
buckets by, one bucket per calendar year+month. -/
def idxMes (d : Date) : ℕ :=
  12 * d.ano + (d.mes - 1)

/-- One row of the dataframe handed to `preparar_df_plot`: its `Data` index
entry and its `ITU` column value (the flow computes `ITU` with
`calcular_itu` row-wise before aggregation, src/DairyClime.py:472). -/
structure Registro where
  data : Date
  itu : ℚ
deriving DecidableEq, Repr

/-- One row of the aggregated `df_plot`.  `chave` is the datum that the
`Label` column is formatted from: the day rank for the daily and 5-day
branches, the linear month rank for the monthly branch, the month number
1..12 for the climatology branch.  `itu` is `none` for a pandas NaN (mean of
an empty resampling bucket). -/
structure Ponto where
  chave : ℕ
  itu : Option ℚ
deriving DecidableEq, Repr

/-- Pandas `.mean()` of a nonempty column. -/
def media (l : List ℚ) : ℚ := l.sum / l.length

/-- Branch `dias <= 15` of `preparar_df_plot` (src/DairyClime.py:132): one
point per record. -/
def diario (s : List Registro) : List Ponto :=
  s.map fun r => ⟨r.data.ord, some r.itu⟩

/-- Branch `dias <= 90` of `preparar_df_plot` (src/DairyClime.py:137):
`df.set_index("Data").resample("5D").mean()`.  Pandas anchors the 5-day bins
at the day of the first index entry (default origin `start_day`; the flow's
dataframe is sorted by date, src/DairyClime.py:118) and emits every bin from
the first record to the last, an empty bin yielding NaN. -/
def resample5D : List Registro → List Ponto
  | [] => []
  | r0 :: resto =>
    let primeiro := r0.data.ord
    let ultimo := ((r0 :: resto).getLastD r0).data.ord
    (List.range ((ultimo - primeiro) / 5 + 1)).map fun k =>
      let grupo := (r0 :: resto).filter fun r => (r.data.ord - primeiro) / 5 == k
      ⟨primeiro + 5 * k, if grupo.isEmpty then none else some (media (grupo.map Registro.itu))⟩

/-- Branch `dias < 365` of `preparar_df_plot` (src/DairyClime.py:147):
`resample("M").mean()`, one bin per calendar year+month from the first
record's month to the last record's month, an empty bin yielding NaN. -/
def resampleM : List Registro → List Ponto
  | [] => []
  | r0 :: resto =>
    let primeiro := idxMes r0.data
    let ultimo := idxMes ((r0 :: resto).getLastD r0).data
    (List.range (ultimo - primeiro + 1)).map fun k =>
      let grupo := (r0 :: resto).filter fun r => idxMes r.data == primeiro + k
      ⟨primeiro + k, if grupo.isEmpty then none else some (media (grupo.map Registro.itu))⟩

/-- Distinct month numbers present in the series, ascending: the group keys
of `groupby("Mes")` (pandas groupby sorts its keys). -/
def mesesDistintos (s : List Registro) : List ℕ :=
  ((s.map fun r => r.data.mes).dedup).insertionSort (· ≤ ·)

/-- Branch `dias >= 365` of `preparar_df_plot` (src/DairyClime.py:157):
`groupby("Mes")["ITU"].mean()`, one point per month number present in the
data, ascending, merging all years. -/
def climatologia (s : List Registro) : List Ponto :=
  (mesesDistintos s).map fun m =>
    ⟨m, some (media ((s.filter fun r => r.data.mes == m).map Registro.itu))⟩

/-- Source `preparar_df_plot` (src/DairyClime.py:122): granularity dispatch
on the period length in days (the source's local `dias`), first match wins. -/
def preparar_df_plot (s : List Registro) (data_ini data_fim : Date) : List Ponto × String :=
  if dias data_ini data_fim ≤ 15 then (diario s, "ITU Diário")
  else if dias data_ini data_fim ≤ 90 then (resample5D s, "ITU (Média a cada 5 dias)")
  else if dias data_ini data_fim < 365 then (resampleM s, "ITU Médio Mensal")
  else (climatologia s, "ITU Médio Mensal (média de todos os anos)")

/-- Color of one plotted bar: `cor_por_itu(v)` for `v` in `df_plot["ITU"]`
(src/DairyClime.py:179).  When `v` is NaN every threshold comparison is
false in Python, so the final branch's color results. -/
def corAplicada : Option ℚ → String
  | some v => cor_por_itu v
  | none => "#C62828"

/-- Source `plot_barras_itu`, line 179: the list of bar colors,
`cores = [cor_por_itu(v) for v in df_plot["ITU"]]`. -/
def plot_barras_cores (df_plot : List Ponto) : List String :=
  df_plot.map fun p => corAplicada p.itu

/-- Error kind of the analysis flow: the empty-series guard
(src/DairyClime.py:467) aborts via `st.warning` + `st.stop()` before any
summary value is computed. -/
inductive ErroAnalise where
  | emptySeriesError
deriving DecidableEq, Repr

/-- The period summary the analysis flow computes (src/DairyClime.py:475),
field for field: mean ITU, its class, the three band percentages, and the
diagnosis produced by `diagnostico_periodo`. -/
structure Resumo where
  media_itu : ℚ
  classe_media : String
  p_alerta : ℚ
  p_perigo : ℚ
  p_emerg : ℚ
  diag : Modelo × List ℚ
deriving DecidableEq, Repr

/-- Module-level analysis flow, src/DairyClime.py:467-483, on the ITU
column: the `df.empty` guard aborts (modelled as `Except.error`), otherwise
`media_itu`, `classe_media`, the percentages `(df["Classe"] == c).mean()*100`
and the diagnosis are computed. -/
def resumo_periodo (itus : List ℚ) : Except ErroAnalise Resumo :=
  if itus.isEmpty then .error .emptySeriesError
  else
    let classes := itus.map classificar_itu
    let m := media itus
    let pa := (((classes.filter fun c => c == "Alerta").length : ℚ) / classes.length) * 100
    let pp := (((classes.filter fun c => c == "Perigo").length : ℚ) / classes.length) * 100
    let pe := (((classes.filter fun c => c == "Emergência").length : ℚ) / classes.length) * 100
    .ok ⟨m, classificar_itu m, pa, pp, pe, diagnostico_periodo m pa pp pe⟩

/-! Spec-side definitions, written from the spec's words, to be compared
with the embeddings above. -/

/-- Spec §4.3: the title each granularity branch must return, as a function
of the period length alone, in the spec's priority order. -/
def tituloDe (d : ℤ) : String :=
  if d ≤ 15 then "ITU Diário"
  else if d ≤ 90 then "ITU (Média a cada 5 dias)"
  else if d < 365 then "ITU Médio Mensal"
  else "ITU Médio Mensal (média de todos os anos)"

/-- Modelled from the spec: "bucket into consecutive non-overlapping 5-day
windows anchored at periodStart, point value = mean index within window"
(§4.3 rule 2).  Identical to `resample5D` except that the windows are
anchored at `data_ini` (periodStart) instead of at the first record. -/
def agg5D_spec (data_ini : Date) : List Registro → List Ponto
  | [] => []
  | r0 :: resto =>
    let primeiro := data_ini.ord
    let ultimo := ((r0 :: resto).getLastD r0).data.ord
    (List.range ((ultimo - primeiro) / 5 + 1)).map fun k =>
      let grupo := (r0 :: resto).filter fun r => (r.data.ord - primeiro) / 5 == k
      ⟨primeiro + 5 * k, if grupo.isEmpty then none else some (media (grupo.map Registro.itu))⟩

/-- Spec §4.4: the diagnosis template selected from the band of the mean,
interpolating the mean and that band's own percentage. -/
def diagSpec (classe : String) (m pa pp pe : ℚ) : Modelo × List ℚ :=
  if classe = "Normal" then (.normal, [m])
  else if classe = "Alerta" then (.alerta, [m, pa])
  else if classe = "Perigo" then (.perigo, [m, pp])
  else (.emergencia, [m, pe])

/-- Spec §4.2: the one fixed color of each category. -/
def corDaClasse (classe : String) : String :=
  if classe = "Normal" then "#2E7D32"
  else if classe = "Alerta" then "#F9A825"
  else if classe = "Perigo" then "#EF6C00"
  else "#C62828"

/-! Helper lemmas shared by the claims. -/

lemma cor_eq_corDaClasse (x : ℚ) : cor_por_itu x = corDaClasse (classificar_itu x) := by
  unfold cor_por_itu classificar_itu
  split_ifs <;> simp [corDaClasse]

lemma diagnostico_eq_diagSpec (m pa pp pe : ℚ) :
    diagnostico_periodo m pa pp pe = diagSpec (classificar_itu m) m pa pp pe := by
  unfold diagnostico_periodo classificar_itu
  split_ifs <;> simp [diagSpec]

lemma preparar_snd (s : List Registro) (i f : Date) :
    (preparar_df_plot s i f).2 = tituloDe (dias i f) := by
  unfold preparar_df_plot tituloDe
  split_ifs <;> rfl

lemma preparar_fst_diario (s : List Registro) (i f : Date) (h : dias i f ≤ 15) :
    (preparar_df_plot s i f).1 = diario s := by
  unfold preparar_df_plot
  rw [if_pos h]

lemma preparar_fst_5d (s : List Registro) (i f : Date)
    (h1 : 15 < dias i f) (h2 : dias i f ≤ 90) :
    (preparar_df_plot s i f).1 = resample5D s := by
  unfold preparar_df_plot
  rw [if_neg (by omega), if_pos h2]

lemma preparar_fst_mensal (s : List Registro) (i f : Date)
    (h1 : 90 < dias i f) (h2 : dias i f < 365) :
    (preparar_df_plot s i f).1 = resampleM s := by
  unfold preparar_df_plot
  rw [if_neg (by omega), if_neg (by omega), if_pos h2]

lemma preparar_fst_clima (s : List Registro) (i f : Date) (h : 365 ≤ dias i f) :
    (preparar_df_plot s i f).1 = climatologia s := by
  unfold preparar_df_plot
  rw [if_neg (by omega), if_neg (by omega), if_neg (by omega)]

/-- C1: for every index value v, classify returns Normal iff v ≤ 70, Alert iff
70 < v ≤ 78, Danger iff 78 < v ≤ 82, Emergency iff v > 82; and the boundary
instances classify(70) = Normal, classify(70.0001) = Alert, classify(78) =
Alert, classify(82) = Danger, classify(82.0001) = Emergency. -/
theorem classificar_itu_faixas :
    (∀ v : ℚ, classificar_itu v = "Normal" ↔ v ≤ 70)
  ∧ (∀ v : ℚ, classificar_itu v = "Alerta" ↔ 70 < v ∧ v ≤ 78)
  ∧ (∀ v : ℚ, classificar_itu v = "Perigo" ↔ 78 < v ∧ v ≤ 82)
  ∧ (∀ v : ℚ, classificar_itu v = "Emergência" ↔ 82 < v)
  ∧ classificar_itu 70 = "Normal"
  ∧ classificar_itu 70.0001 = "Alerta"
  ∧ classificar_itu 78 = "Alerta"
  ∧ classificar_itu 82 = "Perigo"
  ∧ classificar_itu 82.0001 = "Emergência" := by
  refine ⟨?_, ?_, ?_, ?_, ?_, ?_, ?_, ?_, ?_⟩
  · intro v; unfold classificar_itu; split_ifs <;> simp_all
  · intro v; unfold classificar_itu
    split_ifs <;> simp_all
  · intro v; unfold classificar_itu
    split_ifs <;> simp_all
    all_goals intro h; linarith
  · intro v; unfold classificar_itu
    split_ifs <;> simp_all
    all_goals linarith
  · norm_num [classificar_itu]
  · norm_num [classificar_itu]
  · norm_num [classificar_itu]
  · norm_num [classificar_itu]
  · norm_num [classificar_itu]

/-- C5: computeIndex(airTemp, relHumidity) = 0.8*airTemp +
(relHumidity*(airTemp - 14.3))/100 + 46.3 for all inputs; in particular
computeIndex(30, 60) = 79.72, which classifies as Danger ("Perigo"). -/
theorem calcular_itu_formula :
    (∀ ta ur : ℚ, calcular_itu ta ur = 0.8 * ta + (ur * (ta - 14.3)) / 100 + 46.3)
  ∧ calcular_itu 30 60 = 79.72
  ∧ classificar_itu (calcular_itu 30 60) = "Perigo" := by
  refine ⟨fun ta ur => rfl, by norm_num [calcular_itu], by norm_num [calcular_itu, classificar_itu]⟩

/-- C6: the summary computation applied to an empty series takes the
empty-series error path (the `df.empty` guard, which aborts before any of
meanIndex, the percentages or the diagnosis is produced) instead of
returning a summary value. -/
theorem resumo_periodo_vazio :
    resumo_periodo [] = Except.error ErroAnalise.emptySeriesError := rfl

/-- C7: for every period, aggregation applied to the empty series returns the
empty point sequence together with the matched branch's title (a total
function: no exception path exists in the model). -/
theorem preparar_df_plot_vazio :
    ∀ (i f : Date), preparar_df_plot [] i f = ([], tituloDe (dias i f)) := by
  intro i f
  unfold preparar_df_plot tituloDe
  split_ifs <;> rfl

/-- C4: the aggregation granularity is selected solely from
D = (periodEnd - periodStart).days + 1, in the spec's priority order with
inclusive lower boundaries — D ≤ 15 daily, 15 < D ≤ 90 five-day buckets,
90 < D < 365 per-(year,month) buckets, D ≥ 365 the month-of-year
climatology — the title being a function of D alone; in particular D = 15 is
daily, D = 90 is 5-day, and D = 365 is the climatology branch. -/
theorem preparar_df_plot_selecao :
    (∀ (s : List Registro) (i f : Date), (preparar_df_plot s i f).2 = tituloDe (dias i f))
  ∧ (∀ (s t : List Registro) (i f : Date), (preparar_df_plot s i f).2 = (preparar_df_plot t i f).2)
  ∧ (∀ (s : List Registro) (i f : Date), dias i f ≤ 15 → (preparar_df_plot s i f).1 = diario s)
  ∧ (∀ (s : List Registro) (i f : Date), 15 < dias i f → dias i f ≤ 90 →
       (preparar_df_plot s i f).1 = resample5D s)
  ∧ (∀ (s : List Registro) (i f : Date), 90 < dias i f → dias i f < 365 →
       (preparar_df_plot s i f).1 = resampleM s)
  ∧ (∀ (s : List Registro) (i f : Date), 365 ≤ dias i f → (preparar_df_plot s i f).1 = climatologia s)
  ∧ dias ⟨2020, 1, 1⟩ ⟨2020, 1, 15⟩ = 15
  ∧ (preparar_df_plot [] ⟨2020, 1, 1⟩ ⟨2020, 1, 15⟩).2 = "ITU Diário"
  ∧ dias ⟨2020, 1, 1⟩ ⟨2020, 3, 30⟩ = 90
  ∧ (preparar_df_plot [] ⟨2020, 1, 1⟩ ⟨2020, 3, 30⟩).2 = "ITU (Média a cada 5 dias)"
  ∧ dias ⟨2020, 1, 1⟩ ⟨2020, 12, 30⟩ = 365
  ∧ (preparar_df_plot [] ⟨2020, 1, 1⟩ ⟨2020, 12, 30⟩).2
      = "ITU Médio Mensal (média de todos os anos)" := by
  refine ⟨preparar_snd, ?_, preparar_fst_diario, preparar_fst_5d, preparar_fst_mensal,
    preparar_fst_clima, by decide, ?_, by decide, ?_, by decide, ?_⟩
  · intro s t i f
    rw [preparar_snd, preparar_snd]
  · rw [preparar_snd]; decide
  · rw [preparar_snd]; decide
  · rw [preparar_snd]; decide

/-- C4 witness: the dispatch conjuncts instantiated at the boundary periods
D = 15, D = 90 and D = 365 and at D = 182, on the empty series. -/
theorem preparar_df_plot_selecao_test :
    (preparar_df_plot [] ⟨2020, 1, 1⟩ ⟨2020, 1, 15⟩).1 = diario []
  ∧ (preparar_df_plot [] ⟨2020, 1, 1⟩ ⟨2020, 3, 30⟩).1 = resample5D []
  ∧ (preparar_df_plot [] ⟨2020, 1, 1⟩ ⟨2020, 6, 30⟩).1 = resampleM []
  ∧ (preparar_df_plot [] ⟨2020, 1, 1⟩ ⟨2020, 12, 30⟩).1 = climatologia [] :=
  ⟨preparar_df_plot_selecao.2.2.1 [] ⟨2020, 1, 1⟩ ⟨2020, 1, 15⟩ (by decide),
   preparar_df_plot_selecao.2.2.2.1 [] ⟨2020, 1, 1⟩ ⟨2020, 3, 30⟩ (by decide) (by decide),
   preparar_df_plot_selecao.2.2.2.2.1 [] ⟨2020, 1, 1⟩ ⟨2020, 6, 30⟩ (by decide) (by decide),
   preparar_df_plot_selecao.2.2.2.2.2.1 [] ⟨2020, 1, 1⟩ ⟨2020, 12, 30⟩ (by decide)⟩

/-- C8: the diagnosis is selected by classifying the mean index with the same
four bands as per-day classification, and the selected template interpolates
the mean plus that band's own percentage (Normal: only the mean; Alert:
p_alert; Danger: p_danger; Emergency: p_emergency); the analysis flow wires
exactly these values into the summary. -/
theorem diagnostico_periodo_selecao :
    (∀ m pa pp pe : ℚ, diagnostico_periodo m pa pp pe = diagSpec (classificar_itu m) m pa pp pe)
  ∧ (∀ (itus : List ℚ) (r : Resumo), resumo_periodo itus = Except.ok r →
       r.classe_media = classificar_itu r.media_itu
     ∧ r.diag = diagSpec r.classe_media r.media_itu r.p_alerta r.p_perigo r.p_emerg) := by
  refine ⟨diagnostico_eq_diagSpec, ?_⟩
  intro itus r h
  match itus with
  | [] => simp [resumo_periodo] at h
  | a :: l =>
    rw [show resumo_periodo (a :: l) = Except.ok ⟨media (a :: l),
          classificar_itu (media (a :: l)),
          ((((a :: l).map classificar_itu).filter fun c => c == "Alerta").length : ℚ)
            / ((a :: l).map classificar_itu).length * 100,
          ((((a :: l).map classificar_itu).filter fun c => c == "Perigo").length : ℚ)
            / ((a :: l).map classificar_itu).length * 100,
          ((((a :: l).map classificar_itu).filter fun c => c == "Emergência").length : ℚ)
            / ((a :: l).map classificar_itu).length * 100,
          diagnostico_periodo (media (a :: l))
            (((((a :: l).map classificar_itu).filter fun c => c == "Alerta").length : ℚ)
              / ((a :: l).map classificar_itu).length * 100)
            (((((a :: l).map classificar_itu).filter fun c => c == "Perigo").length : ℚ)
              / ((a :: l).map classificar_itu).length * 100)
            (((((a :: l).map classificar_itu).filter fun c => c == "Emergência").length : ℚ)
              / ((a :: l).map classificar_itu).length * 100)⟩ from rfl] at h
    cases h
    exact ⟨rfl, diagnostico_eq_diagSpec _ _ _ _⟩

/-- C8 witness: the series [75] has mean 75 (Alert band, 100% of days in
Alert); its summary's class is classify(mean) and its diagnosis is the
Alert template interpolating the mean and p_alert. -/
theorem diagnostico_periodo_selecao_test :
    (Resumo.mk 75 "Alerta" 100 0 0 (Modelo.alerta, [75, 100])).classe_media
      = classificar_itu (Resumo.mk 75 "Alerta" 100 0 0 (Modelo.alerta, [75, 100])).media_itu
  ∧ (Resumo.mk 75 "Alerta" 100 0 0 (Modelo.alerta, [75, 100])).diag
      = diagSpec (Resumo.mk 75 "Alerta" 100 0 0 (Modelo.alerta, [75, 100])).classe_media
          (Resumo.mk 75 "Alerta" 100 0 0 (Modelo.alerta, [75, 100])).media_itu
          (Resumo.mk 75 "Alerta" 100 0 0 (Modelo.alerta, [75, 100])).p_alerta
          (Resumo.mk 75 "Alerta" 100 0 0 (Modelo.alerta, [75, 100])).p_perigo
          (Resumo.mk 75 "Alerta" 100 0 0 (Modelo.alerta, [75, 100])).p_emerg :=
  diagnostico_periodo_selecao.2 [75] (Resumo.mk 75 "Alerta" 100 0 0 (Modelo.alerta, [75, 100]))
    (by with_unfolding_all rfl)

/-- C9: the bar color is a function of the category alone: one fixed color
per category (`corDaClasse`) reproduces `cor_por_itu` exactly, equal
categories get equal colors, and the chart path colors every bar by exactly
this mapping applied to the point's index value. -/
theorem cor_por_itu_consistente :
    (∀ x : ℚ, cor_por_itu x = corDaClasse (classificar_itu x))
  ∧ (∀ x y : ℚ, classificar_itu x = classificar_itu y → cor_por_itu x = cor_por_itu y)
  ∧ (∀ pts : List Ponto, plot_barras_cores pts =
       pts.map fun p => match p.itu with
         | some v => corDaClasse (classificar_itu v)
         | none => "#C62828") := by
  refine ⟨cor_eq_corDaClasse, ?_, ?_⟩
  · intro x y h
    rw [cor_eq_corDaClasse, cor_eq_corDaClasse, h]
  · intro pts
    unfold plot_barras_cores
    induction pts with
    | nil => rfl
    | cons p l ih =>
      simp only [List.map_cons, ih]
      cases p.itu <;> simp [corAplicada, cor_eq_corDaClasse]

/-- C9 witness: 50 and 60 classify alike (both Normal), so they get the
same color. -/
theorem cor_por_itu_consistente_test :
    classificar_itu 50 = classificar_itu 60 ∧ cor_por_itu 50 = cor_por_itu 60 :=
  ⟨by norm_num [classificar_itu], cor_por_itu_consistente.2.1 50 60 (by norm_num [classificar_itu])⟩

lemma mesesDistintos_sorted (s : List Registro) : List.Sorted (· ≤ ·) (mesesDistintos s) :=
  List.sorted_insertionSort _ _

lemma mesesDistintos_nodup (s : List Registro) : (mesesDistintos s).Nodup :=
  (List.perm_insertionSort _ _).nodup_iff.mpr (List.nodup_dedup _)

lemma mem_mesesDistintos (m : ℕ) (s : List Registro) :
    m ∈ mesesDistintos s ↔ ∃ r ∈ s, r.data.mes = m := by
  unfold mesesDistintos
  rw [(List.perm_insertionSort _ _).mem_iff, List.mem_dedup, List.mem_map]

lemma climatologia_chaves (s : List Registro) :
    (climatologia s).map Ponto.chave = mesesDistintos s := by
  unfold climatologia
  rw [List.map_map]
  exact List.map_id _

lemma nodup_length_le_doze (l : List ℕ) (hn : l.Nodup) (hb : ∀ x ∈ l, x ∈ Finset.Icc 1 12) :
    l.length ≤ 12 := by
  have h1 : l.toFinset.card = l.length := List.toFinset_card_of_nodup hn
  have h2 : l.toFinset ⊆ Finset.Icc 1 12 := fun x hx => hb x (List.mem_toFinset.mp hx)
  have h3 := Finset.card_le_card h2
  rw [h1, Nat.card_Icc] at h3
  omega

/-- C2 (amended): for D ≥ 365 the aggregation buckets records by
month-of-year merging all years, each point's value is the mean index over
the records sharing its month number, points are in calendar-month order
with no duplicates, a month appears iff some record carries it (months with
no data are absent, never zero-filled), and there are at most 12 points —
exactly 12 precisely when every month 1..12 occurs in the data (the claim's
unconditional "exactly 12 points for D = 400" does not hold, see the
counterexample). -/
theorem climatologia_por_mes (s : List Registro) (i f : Date) (hd : 365 ≤ dias i f) :
    List.Sorted (· ≤ ·) (((preparar_df_plot s i f).1).map Ponto.chave)
  ∧ (((preparar_df_plot s i f).1).map Ponto.chave).Nodup
  ∧ (∀ m, m ∈ ((preparar_df_plot s i f).1).map Ponto.chave ↔ ∃ r ∈ s, r.data.mes = m)
  ∧ (∀ p ∈ (preparar_df_plot s i f).1,
       p.itu = some (media ((s.filter fun r => r.data.mes == p.chave).map Registro.itu)))
  ∧ ((∀ r ∈ s, r.data.mes ∈ Finset.Icc 1 12) → ((preparar_df_plot s i f).1).length ≤ 12)
  ∧ ((∀ r ∈ s, r.data.mes ∈ Finset.Icc 1 12) →
     (∀ m ∈ Finset.Icc 1 12, ∃ r ∈ s, r.data.mes = m) →
     ((preparar_df_plot s i f).1).length = 12) := by
  rw [preparar_fst_clima s i f hd]
  refine ⟨?_, ?_, ?_, ?_, ?_, ?_⟩
  · rw [climatologia_chaves]; exact mesesDistintos_sorted s
  · rw [climatologia_chaves]; exact mesesDistintos_nodup s
  · intro m; rw [climatologia_chaves]; exact mem_mesesDistintos m s
  · intro p hp
    obtain ⟨m, _, rfl⟩ := List.mem_map.mp hp
    rfl
  · intro hb
    have hlen : (climatologia s).length = (mesesDistintos s).length := by
      unfold climatologia; rw [List.length_map]
    rw [hlen]
    refine nodup_length_le_doze _ (mesesDistintos_nodup s) ?_
    intro x hx
    obtain ⟨r, hr, hrm⟩ := (mem_mesesDistintos x s).mp hx
    exact hrm ▸ hb r hr
  · intro hb hall
    have hlen : (climatologia s).length = (mesesDistintos s).length := by
      unfold climatologia; rw [List.length_map]
    rw [hlen]
    have hcard : (mesesDistintos s).toFinset.card = (mesesDistintos s).length :=
      List.toFinset_card_of_nodup (mesesDistintos_nodup s)
    have hsub : (mesesDistintos s).toFinset ⊆ Finset.Icc 1 12 := by
      intro x hx
      obtain ⟨r, hr, hrm⟩ := (mem_mesesDistintos x s).mp (List.mem_toFinset.mp hx)
      exact hrm ▸ hb r hr
    have hsup : Finset.Icc 1 12 ⊆ (mesesDistintos s).toFinset := by
      intro x hx
      exact List.mem_toFinset.mpr ((mem_mesesDistintos x s).mpr (hall x hx))
    rw [Finset.Subset.antisymm hsub hsup, Nat.card_Icc] at hcard
    omega

/-- C2 counterexample: a period of D = 400 days whose series holds a single
record (2020-05-10) makes the climatology branch emit ONE point, not the 12
points the claim asserts unconditionally for D = 400. -/
theorem climatologia_contraexemplo :
    dias ⟨2020, 1, 1⟩ ⟨2021, 2, 3⟩ = 400
  ∧ (preparar_df_plot [⟨⟨2020, 5, 10⟩, 75⟩] ⟨2020, 1, 1⟩ ⟨2021, 2, 3⟩).1.length = 1 :=
  ⟨by decide, by with_unfolding_all rfl⟩

/-- Series with one record in each month of 2020, for the C2 witness. -/
def serieClima : List Registro :=
  [⟨⟨2020, 1, 15⟩, 70⟩, ⟨⟨2020, 2, 15⟩, 71⟩, ⟨⟨2020, 3, 15⟩, 72⟩, ⟨⟨2020, 4, 15⟩, 73⟩,
   ⟨⟨2020, 5, 15⟩, 74⟩, ⟨⟨2020, 6, 15⟩, 75⟩, ⟨⟨2020, 7, 15⟩, 76⟩, ⟨⟨2020, 8, 15⟩, 77⟩,
   ⟨⟨2020, 9, 15⟩, 78⟩, ⟨⟨2020, 10, 15⟩, 79⟩, ⟨⟨2020, 11, 15⟩, 80⟩, ⟨⟨2020, 12, 15⟩, 81⟩]

/-- C2 witness: a 365-day period whose series covers all 12 months gives 12
points without duplicate months. -/
theorem climatologia_por_mes_test :
    (((preparar_df_plot serieClima ⟨2020, 1, 1⟩ ⟨2020, 12, 30⟩).1).map Ponto.chave).Nodup
  ∧ ((preparar_df_plot serieClima ⟨2020, 1, 1⟩ ⟨2020, 12, 30⟩).1).length = 12 := by
  have h := climatologia_por_mes serieClima ⟨2020, 1, 1⟩ ⟨2020, 12, 30⟩ (by decide)
  exact ⟨h.2.1, h.2.2.2.2.2 (by decide) (by decide)⟩

/-- C3 (amended): in the 5-day branch (15 < D ≤ 90) the code partitions the
records into consecutive, non-overlapping 5-day windows anchored at the date
of the FIRST RECORD (pandas `resample("5D")`, origin `start_day`), not at
periodStart: every emitted point is the k-th window
[first + 5k, first + 5k + 5) and its value is the arithmetic mean of the
index values falling in that window; whenever the first record falls exactly
on periodStart the two anchorings coincide and the code equals the
periodStart-anchored aggregation of the spec. -/
theorem resample5D_ancoragem (r0 : Registro) (resto : List Registro) (i f : Date)
    (h1 : 15 < dias i f) (h2 : dias i f ≤ 90)
    (hmin : ∀ r ∈ r0 :: resto, r0.data.ord ≤ r.data.ord) :
    (∀ p ∈ (preparar_df_plot (r0 :: resto) i f).1, ∃ k,
        k ≤ (((r0 :: resto).getLastD r0).data.ord - r0.data.ord) / 5
      ∧ p.chave = r0.data.ord + 5 * k
      ∧ p.itu = (if ((r0 :: resto).filter fun r =>
              decide (r0.data.ord + 5 * k ≤ r.data.ord ∧ r.data.ord < r0.data.ord + 5 * k + 5)).isEmpty
          then none
          else some (media (((r0 :: resto).filter fun r =>
              decide (r0.data.ord + 5 * k ≤ r.data.ord ∧ r.data.ord < r0.data.ord + 5 * k + 5)).map
                Registro.itu))))
  ∧ (r0.data = i → (preparar_df_plot (r0 :: resto) i f).1 = agg5D_spec i (r0 :: resto)) := by
  rw [preparar_fst_5d _ i f h1 h2]
  constructor
  · intro p hp
    simp only [resample5D] at hp
    obtain ⟨k, hk, rfl⟩ := List.mem_map.mp hp
    rw [List.mem_range] at hk
    refine ⟨k, by omega, rfl, ?_⟩
    have hfil : ((r0 :: resto).filter fun r => (r.data.ord - r0.data.ord) / 5 == k)
        = (r0 :: resto).filter fun r =>
            decide (r0.data.ord + 5 * k ≤ r.data.ord ∧ r.data.ord < r0.data.ord + 5 * k + 5) := by
      apply List.filter_congr
      intro r hr
      have hge := hmin r hr
      rw [Bool.eq_iff_iff]
      simp only [beq_iff_eq, decide_eq_true_eq]
      omega
    dsimp only
    rw [hfil]
  · intro hi
    subst hi
    rfl

/-- C3 counterexample: period 2020-01-01..2020-01-20 (D = 20) with records
on Jan 2 (index 60) and Jan 6 (index 80).  The code's windows start at the
first record (Jan 2), so both records share one window whose mean is 70; the
periodStart-anchored windows of the claim start at Jan 1 and separate the
records into two windows with means 60 and 80.  The claim's anchoring is
therefore not the code's. -/
theorem resample5D_contraexemplo :
    15 < dias ⟨2020, 1, 1⟩ ⟨2020, 1, 20⟩
  ∧ dias ⟨2020, 1, 1⟩ ⟨2020, 1, 20⟩ ≤ 90
  ∧ (preparar_df_plot [⟨⟨2020, 1, 2⟩, 60⟩, ⟨⟨2020, 1, 6⟩, 80⟩] ⟨2020, 1, 1⟩ ⟨2020, 1, 20⟩).1
      = [⟨Date.ord ⟨2020, 1, 2⟩, some 70⟩]
  ∧ agg5D_spec ⟨2020, 1, 1⟩ [⟨⟨2020, 1, 2⟩, 60⟩, ⟨⟨2020, 1, 6⟩, 80⟩]
      = [⟨Date.ord ⟨2020, 1, 1⟩, some 60⟩, ⟨Date.ord ⟨2020, 1, 1⟩ + 5, some 80⟩] :=
  ⟨by decide, by decide, by with_unfolding_all rfl, by with_unfolding_all rfl⟩

/-- C3 witness: when the first record falls exactly on periodStart the
code's 5-day aggregation coincides with the periodStart-anchored one. -/
theorem resample5D_ancoragem_test :
    (preparar_df_plot [⟨⟨2020, 1, 1⟩, 60⟩, ⟨⟨2020, 1, 6⟩, 80⟩] ⟨2020, 1, 1⟩ ⟨2020, 1, 20⟩).1
      = agg5D_spec ⟨2020, 1, 1⟩ [⟨⟨2020, 1, 1⟩, 60⟩, ⟨⟨2020, 1, 6⟩, 80⟩] :=
  (resample5D_ancoragem ⟨⟨2020, 1, 1⟩, 60⟩ [⟨⟨2020, 1, 6⟩, 80⟩] ⟨2020, 1, 1⟩ ⟨2020, 1, 20⟩
    (by decide) (by decide) (by decide)).2 rfl

/-- C10: in the 5-day branch (15 < D ≤ 90) and in the per-month branch
(90 < D < 365), a bucket lying between the first and last record (index k of
the emitted bucket range) that contains no record is still emitted as a
point whose value is the undefined NaN mean (`none`), not omitted from the
sequence. -/
theorem buckets_vazios (r0 : Registro) (resto : List Registro) (i f : Date) (k : ℕ) :
    (15 < dias i f → dias i f ≤ 90 →
      k ≤ (((r0 :: resto).getLastD r0).data.ord - r0.data.ord) / 5 →
      ((r0 :: resto).filter fun r => (r.data.ord - r0.data.ord) / 5 == k).isEmpty = true →
      (preparar_df_plot (r0 :: resto) i f).1[k]? = some ⟨r0.data.ord + 5 * k, none⟩)
  ∧ (90 < dias i f → dias i f < 365 →
      k ≤ idxMes (((r0 :: resto).getLastD r0).data) - idxMes r0.data →
      ((r0 :: resto).filter fun r => idxMes r.data == idxMes r0.data + k).isEmpty = true →
      (preparar_df_plot (r0 :: resto) i f).1[k]? = some ⟨idxMes r0.data + k, none⟩) := by
  constructor
  · intro h1 h2 hk he
    rw [preparar_fst_5d _ i f h1 h2]
    simp only [resample5D]
    rw [List.getElem?_map, List.getElem?_range (by omega), Option.map_some', he]
    simp
  · intro h1 h2 hk he
    rw [preparar_fst_mensal _ i f h1 h2]
    simp only [resampleM]
    rw [List.getElem?_map, List.getElem?_range (by omega), Option.map_some', he]
    simp

/-- C10 witness: records on Jan 1 and Jan 11 over a 20-day period leave the
middle 5-day bucket (Jan 6..10, index 1) empty, and it is emitted with value
`none`; records on Jan 15 and Apr 15 over a 182-day period leave February
(bucket index 1) empty, and it is emitted with value `none`. -/
theorem buckets_vazios_test :
    (preparar_df_plot [⟨⟨2020, 1, 1⟩, 60⟩, ⟨⟨2020, 1, 11⟩, 80⟩] ⟨2020, 1, 1⟩ ⟨2020, 1, 20⟩).1[1]?
      = some ⟨Date.ord ⟨2020, 1, 1⟩ + 5 * 1, none⟩
  ∧ (preparar_df_plot [⟨⟨2020, 1, 15⟩, 60⟩, ⟨⟨2020, 4, 15⟩, 80⟩] ⟨2020, 1, 1⟩ ⟨2020, 6, 30⟩).1[1]?
      = some ⟨idxMes ⟨2020, 1, 15⟩ + 1, none⟩ :=
  ⟨(buckets_vazios ⟨⟨2020, 1, 1⟩, 60⟩ [⟨⟨2020, 1, 11⟩, 80⟩] ⟨2020, 1, 1⟩ ⟨2020, 1, 20⟩ 1).1
      (by decide) (by decide) (by decide) (by decide),
   (buckets_vazios ⟨⟨2020, 1, 15⟩, 60⟩ [⟨⟨2020, 4, 15⟩, 80⟩] ⟨2020, 1, 1⟩ ⟨2020, 6, 30⟩ 1).2
      (by decide) (by decide) (by decide) (by decide)⟩
